import Mathlib

/-
Verification of the Interaction and Verification Engine of the
Web-Accessibility-Scanner repository, as implemented by
src/agents/shadow_navigator.py (class ShadowNavigatorAgent).

The shallow embedding below translates, from the source:
  - the page fingerprint captured by _capture_fingerprint and the
    heuristic impact classifier _calculate_delta;
  - the DOM model (light trees, frames, shadow roots) and the
    acquisition routine _locate_robustly;
  - the click escalation ladder _escalated_click_engine and the typing
    engine _zenith_typing_engine (their exception behaviour);
  - the orchestration of execute(), with exceptions modelled as Except
    and the number of fingerprint captures instrumented.
-/

-- ==========================================================================
-- Fingerprint and the impact classifier (_capture_fingerprint /
-- _calculate_delta).  On capture failure the source returns a dict holding
-- only the url plus error=True; this is modelled by the error flag.
-- ==========================================================================

structure Fingerprint where
  url : String
  title : String
  node_count : Int
  visible_inputs : Int
  scroll_y : Int
  text_len : Int
  error : Bool
deriving DecidableEq, Repr

/-- Translation of ShadowNavigatorAgent._calculate_delta: the fixed
priority cascade mapping a pair of fingerprints to an impact label. -/
def calculateDelta (pre post : Fingerprint) : String :=
  if post.error = true ∨ pre.error = true then "UNKNOWN_STATE"
  else if post.url ≠ pre.url then "URL_NAVIGATED"
  else if post.visible_inputs > pre.visible_inputs then "INPUT_FIELD_APPEARED"
  else if post.visible_inputs < pre.visible_inputs then "UI_COLLAPSED"
  else if post.title ≠ pre.title then "TITLE_CHANGED"
  else if 5 < |post.node_count - pre.node_count| then "DOM_MUTATED"
  else if 20 < |post.text_len - pre.text_len| then "CONTENT_UPDATED"
  else "NO_CHANGE"

/-- Concrete successful fingerprint used in witnesses. -/
def fpA : Fingerprint := ⟨"https://a.example/", "Home", 100, 2, 0, 1000, false⟩

/-- Concrete successful fingerprint with a different url, node count and
text length. -/
def fpB : Fingerprint := ⟨"https://b.example/", "Other", 200, 2, 0, 2000, false⟩

/-- Concrete successful fingerprint equal to fpA except for small
node-count and text-length drifts below both thresholds. -/
def fpC : Fingerprint := ⟨"https://a.example/", "Home", 103, 2, 0, 1010, false⟩

/-- Concrete failed capture: the source returns only the url plus an
error marker; the remaining fields are immaterial. -/
def errFingerprint : Fingerprint := ⟨"https://a.example/", "", 0, 0, 0, 0, true⟩

-- ==========================================================================
-- DOM model for acquisition (_locate_robustly).  An element is a node id
-- together with an optional shadow root and its light (ordinary) children.
-- A document is a forest of elements in document order.  XPath evaluation
-- (document.evaluate) walks only the light tree of its root and never
-- pierces shadow boundaries; querySelectorAll walks only the light tree of
-- the document.
-- ==========================================================================

mutual

inductive ETree where
  | node : Nat → ShadowOpt → EForest → ETree

inductive ShadowOpt where
  | noShadow : ShadowOpt
  | shadow : EForest → ShadowOpt

inductive EForest where
  | nil : EForest
  | cons : ETree → EForest → EForest

end

/-- A locator expression: its raw text, whether it is syntactically valid,
and the set of element ids it matches. -/
structure Locator where
  expr : String
  valid : Bool
  ids : List Nat

mutual

/-- First match of the locator in the light tree of one element, pre-order
(document order), without entering shadow roots. -/
def treeFind (loc : Locator) : ETree → Option Nat
  | .node i _ ch => if i ∈ loc.ids then some i else forestFind loc ch

/-- First match of the locator in the light trees of a forest. -/
def forestFind (loc : Locator) : EForest → Option Nat
  | .nil => none
  | .cons t ts => (treeFind loc t) <|> forestFind loc ts

end

/-- Model of getByXpath in the shadow-scan script: document.evaluate
wrapped in a try/catch, so a syntactically invalid expression yields null
instead of raising. -/
def evalXPath (loc : Locator) (root : EForest) : Option Nat :=
  if loc.valid then forestFind loc root else none

mutual

/-- All elements of the light tree of one element, pre-order, as returned
by querySelectorAll: shadow contents are not included. -/
def treeElems : ETree → List ETree
  | .node i sh ch => .node i sh ch :: forestElems ch

/-- All elements of the light trees of a forest, in document order. -/
def forestElems : EForest → List ETree
  | .nil => []
  | .cons t ts => treeElems t ++ forestElems ts

end

mutual

/-- Every element id occurring anywhere in one element, shadow contents
included. -/
def treeAllIds : ETree → List Nat
  | .node i sh ch => i :: (shadowAllIds sh ++ forestAllIds ch)

/-- Every element id occurring in a shadow root, if present. -/
def shadowAllIds : ShadowOpt → List Nat
  | .noShadow => []
  | .shadow s => forestAllIds s

/-- Every element id occurring anywhere in a forest, shadow contents
included. -/
def forestAllIds : EForest → List Nat
  | .nil => []
  | .cons t ts => treeAllIds t ++ forestAllIds ts

end

/-- Shadow-root probe for one element of the deep-scan loop: if the
element exposes a shadow root, evaluate the locator against that root
(one level only, as document.evaluate does not pierce nested shadow
roots); otherwise nothing. -/
def elemShadowFind (loc : Locator) : ETree → Option Nat
  | .node _ (.shadow s) _ => evalXPath loc s
  | .node _ .noShadow _ => none

/-- The deep-scan loop of _locate_robustly: walk the listed elements in
order and return the first hit found inside a shadow root. -/
def scanShadows (loc : Locator) : List ETree → Option Nat
  | [] => none
  | e :: es => (elemShadowFind loc e) <|> scanShadows loc es

/-- A page: its main document plus the page.frames list, each frame a
document of its own, in document order. -/
structure PageDom where
  mainDoc : EForest
  frames : List EForest

/-- The frame loop of _locate_robustly: each frame is queried in order
inside its own try/except, so a per-frame failure just moves on. -/
def framesFind (loc : Locator) : List EForest → Option Nat
  | [] => none
  | f :: fs => (evalXPath loc f) <|> framesFind loc fs

/-- Translation of ShadowNavigatorAgent._locate_robustly.  Phase 1 (inside
one try block): the main-frame Playwright query, then the frame loop; a
syntactically invalid expression makes the main-frame query raise, which
skips the whole phase.  Phase 2 (the injected script): re-check the
document root, then scan the shadow roots of all light-DOM elements.
Returns the id of the element found, if any. -/
def locateRobustly (p : PageDom) (loc : Locator) : Option Nat :=
  let phase1 : Option Nat :=
    if loc.valid then
      (forestFind loc p.mainDoc) <|> framesFind loc p.frames
    else none
  phase1 <|> ((evalXPath loc p.mainDoc) <|> scanShadows loc (forestElems p.mainDoc))

/-- The search order the code actually implements, stated for the amended
search-order claim: main document first, then each attached frame in
document order, then a single depth-one pass over the shadow roots of the
light-DOM elements only (shadow roots nested inside other shadow roots
are not visited); short-circuit on the first match. -/
def locateSpecOrder (p : PageDom) (loc : Locator) : Option Nat :=
  (evalXPath loc p.mainDoc) <|>
    (framesFind loc p.frames <|> scanShadows loc (forestElems p.mainDoc))

mutual

/-- All elements reachable from one element, shadow contents included:
the recursive enumeration the spec words describe. -/
def treeElemsDeep : ETree → List ETree
  | .node i sh ch => .node i sh ch :: (shadowElemsDeep sh ++ forestElemsDeep ch)

/-- All elements reachable inside a shadow root, if present. -/
def shadowElemsDeep : ShadowOpt → List ETree
  | .noShadow => []
  | .shadow s => forestElemsDeep s

/-- All elements reachable from a forest, shadow contents included. -/
def forestElemsDeep : EForest → List ETree
  | .nil => []
  | .cons t ts => treeElemsDeep t ++ forestElemsDeep ts

end

/-- Worded from the spec for the search-order refinement: main document
first, then each attached frame in document order, then a single
recursive pass over all elements reachable from the document that expose
a shadow root, evaluating the locator against each shadow root in turn —
reachability includes elements sitting inside shadow roots, so nested
shadow roots are visited too. -/
def locateSpecRecursive (p : PageDom) (loc : Locator) : Option Nat :=
  (evalXPath loc p.mainDoc) <|>
    (framesFind loc p.frames <|> scanShadows loc (forestElemsDeep p.mainDoc))

/-- The locator matches no element in any search scope of the page: no
matched id occurs anywhere in the main document (shadow contents included)
nor in any frame. -/
def NoScopeMatch (p : PageDom) (loc : Locator) : Prop :=
  (∀ i ∈ loc.ids, i ∉ forestAllIds p.mainDoc) ∧
    ∀ f ∈ p.frames, ∀ i ∈ loc.ids, i ∉ forestAllIds f

instance (p : PageDom) (loc : Locator) : Decidable (NoScopeMatch p loc) := by
  unfold NoScopeMatch
  infer_instance

-- ==========================================================================
-- Concrete pages and locators used in witnesses and counterexamples.
-- ==========================================================================

/-- Concrete document: element 1 (with a shadow root holding element 10)
and element 2 with child 3. -/
def docEx : EForest :=
  .cons (.node 1 (.shadow (.cons (.node 10 .noShadow .nil) .nil)) .nil)
    (.cons (.node 2 .noShadow (.cons (.node 3 .noShadow .nil) .nil)) .nil)

/-- Concrete page: docEx as main document and one frame holding
element 7. -/
def pageEx : PageDom :=
  ⟨docEx, [.cons (.node 7 .noShadow .nil) .nil]⟩

/-- Syntactically invalid locator. -/
def locInvalid : Locator := ⟨"//a[", false, [3]⟩

/-- Valid locator matching an id present nowhere on pageEx. -/
def locMiss : Locator := ⟨"//missing", true, [99]⟩

/-- Concrete document whose only occurrence of the target id 5 sits two
shadow levels deep: element 1 hosts a shadow root holding element 2,
which itself hosts a shadow root holding element 5. -/
def deepDoc : EForest :=
  .cons
    (.node 1
      (.shadow (.cons
        (.node 2 (.shadow (.cons (.node 5 .noShadow .nil) .nil)) .nil)
        .nil))
      .nil)
    .nil

/-- Page wrapping deepDoc, with no frames. -/
def deepPage : PageDom := ⟨deepDoc, []⟩

/-- Valid locator matching exactly the doubly-nested element 5. -/
def deepLoc : Locator := ⟨"//deep-target", true, [5]⟩

-- ==========================================================================
-- The click escalation ladder (_escalated_click_engine) and the typing
-- engine (_zenith_typing_engine).  The browser responses are modelled as
-- data: whether each attempted technique succeeds or raises.
-- ==========================================================================

/-- Browser behaviour for one click attempt: whether the standard click,
the force click, the script-injection click succeed, whether the element
has a bounding box, and whether the raw coordinate click succeeds. -/
structure ClickEnv where
  l1 : Bool
  l2 : Bool
  l3 : Bool
  hasBox : Bool
  l4mouse : Bool

/-- Success of the coordinate level: the element must expose a bounding
box and the raw mouse click must not raise. -/
def clickLevel4 (e : ClickEnv) : Bool := e.hasBox && e.l4mouse

/-- Translation of ShadowNavigatorAgent._escalated_click_engine: four
levels tried in order inside successive try/except blocks; each level
runs only when the previous raised; the first success returns; if the
final level also fails, one terminal exception is raised.  The result is
the level that succeeded or the terminal error message. -/
def escalatedClickEngine (e : ClickEnv) : Except String Nat :=
  if e.l1 then .ok 1
  else if e.l2 then .ok 2
  else if e.l3 then .ok 3
  else if e.hasBox && e.l4mouse then .ok 4
  else .error "ALL CLICK ESCALATION LEVELS EXHAUSTED."

/-- Browser behaviour for one typing attempt: whether the standard
clear-and-type path succeeds and whether the fallback force fill
succeeds.  The Enter-Hammer step never raises (its try/except swallows
all failures). -/
structure TypeEnv where
  typeStdOk : Bool
  forceFillOk : Bool

/-- Translation of ShadowNavigatorAgent._zenith_typing_engine exception
behaviour: the standard path is tried first; on failure the force fill
runs and its exception, if any, propagates; the subsequent Enter Hammer
block swallows its own failures. -/
def zenithTypingEngine (e : TypeEnv) : Except String Unit :=
  if e.typeStdOk then .ok ()
  else if e.forceFillOk then .ok ()
  else .error "Force fill failed"

-- ==========================================================================
-- The execute() orchestration (ShadowNavigatorAgent.execute).  Agent
-- state fields are restricted to those the method reads or writes;
-- exceptions are modelled with Except; the number of fingerprint captures
-- performed is instrumented in the result.
-- ==========================================================================

/-- The semantic map handed over by the planner: the target locator (if
any) and the action type, defaulting to CLICK in the source. -/
structure SemanticMap where
  target_xpath : Option Locator
  action_type : String

/-- The slice of the shared AgentState that execute() reads or writes. -/
structure AgentState where
  mission_id : String
  target_url : Option String
  semantic_map : Option SemanticMap
  input_data : String
  status : String
  history_steps : List String
  error_log : List String
  current_url : String
  last_action_impact : Option String

/-- Environment of one execute() call: the DOM for acquisition, the page
url after the action, the cold-start navigation result, the two
fingerprint capture results, and the interaction behaviours. -/
structure PageEnv where
  dom : PageDom
  url1 : String
  gotoOk : Bool
  gotoErr : String
  preFp : Fingerprint
  postFp : Fingerprint
  click : ClickEnv
  typing : TypeEnv

/-- Result of one execute() call: the returned state plus the number of
fingerprint captures that were performed. -/
structure ExecOut where
  state : AgentState
  fpCaptures : Nat

/-- Cold-start condition of execute(): no semantic map, a target url
present, and status STARTED. -/
def coldStart (st : AgentState) : Bool :=
  st.semantic_map.isNone && st.target_url.isSome && (st.status == "STARTED")

/-- The state produced by the fatal exception handler of execute(): a
CRASH line in history (message truncated to 100 characters), the error
recorded, and status back to PLANNING. -/
def crashState (st : AgentState) (loc : Locator) (e : String) : AgentState :=
  { st with
    history_steps := st.history_steps ++ ["CRASH on " ++ loc.expr ++ " -> " ++ e.take 100],
    error_log := st.error_log ++ ["Navigator Fatal: " ++ e],
    status := "PLANNING" }

/-- The try block of execute() once a locator is present: capture the
before fingerprint, locate (returning an acquisition-failure state when
nothing is found), dispatch the action (CLICK or TYPE engines may raise;
other actions only log), settle, capture the after fingerprint, classify,
and record the outcome.  Errors carry the number of fingerprint captures
performed before the raise. -/
def executeTry (env : PageEnv) (st : AgentState) (loc : Locator) (action : String) :
    Except (String × Nat) ExecOut :=
  let pre := env.preFp
  match locateRobustly env.dom loc with
  | none =>
      .ok ⟨{ st with
        history_steps := st.history_steps ++
          ["FAILED on " ++ loc.expr ++ " -> Element Vanished/Hidden during acquisition."],
        error_log := st.error_log ++ ["Element lookup failed for " ++ loc.expr],
        status := "PLANNING" }, 1⟩
  | some _ =>
      let actStep : Except String AgentState :=
        if action = "CLICK" then
          match escalatedClickEngine env.click with
          | .ok _ => .ok st
          | .error e => .error e
        else if action = "TYPE" then
          match zenithTypingEngine env.typing with
          | .ok _ => .ok st
          | .error e => .error e
        else
          .ok { st with error_log := st.error_log ++
                  ["Action " ++ action ++ " not implemented in Zenith."] }
      match actStep with
      | .error e => .error (e, 1)
      | .ok st2 =>
          let post := env.postFp
          let impact := calculateDelta pre post
          let st3 := { st2 with
            history_steps := st2.history_steps ++
              [action ++ " on " ++ loc.expr ++ " -> Result: " ++ impact],
            current_url := env.url1,
            last_action_impact := some impact }
          let st4 :=
            if impact = "NO_CHANGE" then
              { st3 with error_log := st3.error_log ++
                  ["Action \x27" ++ action ++ "\x27 on " ++ loc.expr ++
                    " executed successfully but caused NO DETECTABLE STATE CHANGE."] }
            else st3
          .ok ⟨{ st4 with status := "PLANNING" }, 2⟩

/-- Translation of ShadowNavigatorAgent.execute: cold-start navigation
(with its own exception handler), the no-target early return, and the
main try block whose exceptions are all converted by the fatal handler
into a CRASH record.  Total: every call yields exactly one result. -/
def executeZenith (env : PageEnv) (st : AgentState) : ExecOut :=
  if coldStart st then
    if env.gotoOk then
      ⟨{ st with current_url := env.url1, status := "ANALYZING" }, 0⟩
    else
      ⟨{ st with
          status := "FAILED",
          error_log := st.error_log ++ ["Initial Nav Failed: " ++ env.gotoErr] }, 0⟩
  else
    match st.semantic_map with
    | none => ⟨{ st with status := "PLANNING" }, 0⟩
    | some m =>
        match m.target_xpath with
        | none => ⟨{ st with status := "PLANNING" }, 0⟩
        | some loc =>
            match executeTry env st loc m.action_type with
            | .ok o => o
            | .error (e, n) => ⟨crashState st loc e, n⟩

-- ==========================================================================
-- Concrete execution inputs used in witnesses and counterexamples.
-- ==========================================================================

/-- Valid locator matching element 3, which is present in docEx. -/
def locHit : Locator := ⟨"//a[3]", true, [3]⟩

/-- Concrete agent state carrying a CLICK intent for locHit. -/
def stClick : AgentState :=
  ⟨"M1", some "https://a.example/", some ⟨some locHit, "CLICK"⟩,
    "Digital India", "PLANNING", [], [], "https://a.example/", none⟩

/-- Concrete agent state carrying a CLICK intent for locMiss, which
matches nothing on pageEx. -/
def stMissClick : AgentState :=
  ⟨"M1", some "https://a.example/", some ⟨some locMiss, "CLICK"⟩,
    "Digital India", "PLANNING", [], [], "https://a.example/", none⟩

/-- Environment in which every click level succeeds at once. -/
def envOk : PageEnv :=
  ⟨pageEx, "https://a.example/", true, "", fpA, fpC,
    ⟨true, true, true, true, true⟩, ⟨true, true⟩⟩

/-- Environment in which every click level fails, so the ladder is
exhausted. -/
def envLadderFail : PageEnv :=
  ⟨pageEx, "https://a.example/", true, "", fpA, fpC,
    ⟨false, false, false, false, false⟩, ⟨true, true⟩⟩

-- ==========================================================================
-- PointerPhysics typing cadence.  Modelled from the spec: the
-- typing-delay component of PointerPhysics is code of this repository
-- that is not present under src (the navigator in
-- src/agents/shadow_navigator.py delegates typing cadence to a fixed
-- per-keystroke delay of the browser driver).  Per the spec: keys are
-- mapped to an approximate physical keyboard layout (row, column); the
-- delay is a base latency plus a distance-proportional penalty between
-- consecutive key positions, with an added pause at whitespace and
-- punctuation to model word-boundary thinking pauses.
-- ==========================================================================

/-- Modelled from the spec: approximate physical keyboard layout, one
list per row in top-to-bottom order. -/
def keyRows : List (List Char) :=
  [['1', '2', '3', '4', '5', '6', '7', '8', '9', '0'],
   ['q', 'w', 'e', 'r', 't', 'y', 'u', 'i', 'o', 'p'],
   ['a', 's', 'd', 'f', 'g', 'h', 'j', 'k', 'l'],
   ['z', 'x', 'c', 'v', 'b', 'n', 'm']]

/-- Column of a key within one keyboard row, if present. -/
def colOf : List Char → Char → Option Nat
  | [], _ => none
  | k :: ks, c => if k = c then some 0 else (colOf ks c).map (· + 1)

/-- Row and column of a key among the given rows, if present. -/
def findKey : List (List Char) → Nat → Char → Option (Nat × Nat)
  | [], _, _ => none
  | row :: rest, r, c =>
      match colOf row c with
      | some k => some (r, k)
      | none => findKey rest (r + 1) c

/-- Modelled from the spec: the (row, column) position of a character on
the approximate layout; characters off the letter and digit rows sit at
the space-bar region below. -/
def keyPos (c : Char) : Nat × Nat :=
  match findKey keyRows 0 c.toLower with
  | some p => p
  | none => (4, 5)

/-- Physical layout distance between the key positions of two
characters. -/
def keyDist (a b : Char) : Nat :=
  Nat.dist (keyPos a).1 (keyPos b).1 + Nat.dist (keyPos a).2 (keyPos b).2

/-- Whether a character triggers the word-boundary pause: whitespace or
punctuation. -/
def isBoundary (c : Char) : Bool :=
  c.isWhitespace || ['.', ',', '!', '?', ';', ':'].contains c

/-- Modelled from the spec: the configured base inter-keystroke latency
in milliseconds. -/
def baseLatency : Nat := 60

/-- Modelled from the spec: penalty per unit of layout distance. -/
def distFactor : Nat := 15

/-- Modelled from the spec: the added pause at word boundaries. -/
def boundaryPause : Nat := 120

/-- Modelled from the spec: inter-keystroke delay between two
consecutive typed characters: base latency, plus a penalty proportional
to the layout distance, plus the word-boundary pause when the next
character is whitespace or punctuation. -/
def typingDelay (prev next : Char) : Nat :=
  baseLatency + distFactor * keyDist prev next +
    (if isBoundary next then boundaryPause else 0)

-- ==========================================================================
-- Theorems about the classifier.
-- ==========================================================================

/-- C2: on two successfully captured fingerprints whose urls differ and
whose node counts also differ, the classifier always returns
URL_NAVIGATED: the url rule is checked before the node-count rule and the
cascade returns at the first matching rule. -/
theorem classify_url_dominates (pre post : Fingerprint)
    (hpre : pre.error = false) (hpost : post.error = false)
    (hurl : post.url ≠ pre.url) (hnode : post.node_count ≠ pre.node_count) :
    calculateDelta pre post = "URL_NAVIGATED" := by
  simp [calculateDelta, hpre, hpost, hurl]

/-- Witness for classify_url_dominates at concrete fingerprints. -/
theorem classify_url_dominates_witness :
    calculateDelta fpA fpB = "URL_NAVIGATED" :=
  classify_url_dominates fpA fpB rfl rfl (by decide) (by decide)

/-- C7 counterexample: the source fingerprint type includes failed
captures (error flag set), and for such a fingerprint F the classifier
returns UNKNOWN_STATE on classify(F, F), not NO_CHANGE. -/
theorem classify_self_error_cex :
    calculateDelta errFingerprint errFingerprint = "UNKNOWN_STATE" ∧
    calculateDelta errFingerprint errFingerprint ≠ "NO_CHANGE" := by
  constructor
  · rfl
  · decide

/-- C7 (amended): for every fingerprint captured without error,
classifying the identical fingerprint as both before and after yields
NO_CHANGE. -/
theorem classify_self_nochange (f : Fingerprint) (h : f.error = false) :
    calculateDelta f f = "NO_CHANGE" := by
  simp [calculateDelta, h]

/-- Witness for classify_self_nochange at a concrete fingerprint. -/
theorem classify_self_nochange_witness :
    calculateDelta fpA fpA = "NO_CHANGE" :=
  classify_self_nochange fpA rfl

/-- C10: for fingerprints captured without error that agree on url, title
and visible-input count, the classifier returns NO_CHANGE exactly when
the absolute node-count difference is at most 5 and the absolute
text-length difference is at most 20; DOM_MUTATED exactly when the
node-count difference strictly exceeds 5; CONTENT_UPDATED exactly when
the node-count difference is within 5 and the text-length difference
strictly exceeds 20. -/
theorem classify_threshold_boundaries (pre post : Fingerprint)
    (hpre : pre.error = false) (hpost : post.error = false)
    (hurl : post.url = pre.url) (htitle : post.title = pre.title)
    (hvis : post.visible_inputs = pre.visible_inputs) :
    (calculateDelta pre post = "NO_CHANGE" ↔
      |post.node_count - pre.node_count| ≤ 5 ∧ |post.text_len - pre.text_len| ≤ 20) ∧
    (calculateDelta pre post = "DOM_MUTATED" ↔ 5 < |post.node_count - pre.node_count|) ∧
    (calculateDelta pre post = "CONTENT_UPDATED" ↔
      |post.node_count - pre.node_count| ≤ 5 ∧ 20 < |post.text_len - pre.text_len|) := by
  have hd : calculateDelta pre post =
      if 5 < |post.node_count - pre.node_count| then "DOM_MUTATED"
      else if 20 < |post.text_len - pre.text_len| then "CONTENT_UPDATED"
      else "NO_CHANGE" := by
    simp [calculateDelta, hpre, hpost, hurl, htitle, hvis]
  rw [hd]
  rcases lt_or_le 5 |post.node_count - pre.node_count| with h1 | h1
  · rw [if_pos h1]
    refine ⟨⟨fun h => absurd h (by decide), fun h => absurd h1 (by omega)⟩,
            ⟨fun _ => h1, fun _ => rfl⟩,
            ⟨fun h => absurd h (by decide), fun h => absurd h1 (by omega)⟩⟩
  · rw [if_neg (by omega)]
    rcases lt_or_le 20 |post.text_len - pre.text_len| with h2 | h2
    · rw [if_pos h2]
      exact ⟨⟨fun h => absurd h (by decide), fun h => absurd h2 (by omega)⟩,
             ⟨fun h => absurd h (by decide), fun h => absurd h (by omega)⟩,
             ⟨fun _ => ⟨h1, h2⟩, fun _ => rfl⟩⟩
    · rw [if_neg (by omega)]
      exact ⟨⟨fun _ => ⟨h1, h2⟩, fun _ => rfl⟩,
             ⟨fun h => absurd h (by decide), fun h => absurd h (by omega)⟩,
             ⟨fun h => absurd h (by decide), fun h => absurd h.2 (by omega)⟩⟩

/-- Witness for classify_threshold_boundaries: sub-threshold drifts on a
concrete pair give NO_CHANGE. -/
theorem classify_threshold_boundaries_witness :
    calculateDelta fpA fpC = "NO_CHANGE" :=
  (classify_threshold_boundaries fpA fpC rfl rfl rfl rfl rfl).1.mpr
    ⟨by decide, by decide⟩

-- ==========================================================================
-- Helper lemmas about the acquisition model.
-- ==========================================================================

/-- Associativity of the first-hit combinator on optional results. -/
theorem optOr_assoc (a b c : Option Nat) :
    ((a <|> b) <|> c) = (a <|> (b <|> c)) := by
  cases a <;> rfl

/-- An invalid locator expression evaluates to nothing. -/
theorem evalXPath_invalid (loc : Locator) (d : EForest) (h : loc.valid = false) :
    evalXPath loc d = none := by
  simp [evalXPath, h]

/-- An invalid locator expression finds nothing in any shadow root. -/
theorem elemShadowFind_invalid (loc : Locator) (t : ETree) (h : loc.valid = false) :
    elemShadowFind loc t = none := by
  cases t with
  | node i sh ch => cases sh <;> simp [elemShadowFind, evalXPath, h]

/-- An invalid locator expression makes the whole shadow scan return
nothing. -/
theorem scanShadows_invalid (loc : Locator) (l : List ETree) (h : loc.valid = false) :
    scanShadows loc l = none := by
  induction l with
  | nil => rfl
  | cons e es ih => simp [scanShadows, elemShadowFind_invalid loc e h, ih]

/-- An invalid locator expression finds nothing in any frame. -/
theorem framesFind_invalid (loc : Locator) (fs : List EForest) (h : loc.valid = false) :
    framesFind loc fs = none := by
  induction fs with
  | nil => rfl
  | cons f fs ih => simp [framesFind, evalXPath, h, ih]

/-- The shadow scan distributes over list append, keeping first-hit
order. -/
theorem scanShadows_append (loc : Locator) (l1 l2 : List ETree) :
    scanShadows loc (l1 ++ l2) = (scanShadows loc l1 <|> scanShadows loc l2) := by
  induction l1 with
  | nil => rfl
  | cons e es ih => simp [scanShadows, ih, optOr_assoc]

mutual

/-- If none of the ids a locator matches occurs in an element (shadow
contents included), the light-tree search over that element finds
nothing. -/
theorem treeFind_no_ids (loc : Locator) (t : ETree)
    (h : ∀ i ∈ loc.ids, i ∉ treeAllIds t) : treeFind loc t = none := by
  cases t with
  | node i sh ch =>
      have hi : i ∉ loc.ids := fun hmem => h i hmem (by simp [treeAllIds])
      have hch : forestFind loc ch = none :=
        forestFind_no_ids loc ch
          (fun j hj hins => h j hj (by simp [treeAllIds, hins]))
      simp [treeFind, hi, hch]

/-- If none of the ids a locator matches occurs in a forest (shadow
contents included), the light-tree search over that forest finds
nothing. -/
theorem forestFind_no_ids (loc : Locator) (d : EForest)
    (h : ∀ i ∈ loc.ids, i ∉ forestAllIds d) : forestFind loc d = none := by
  cases d with
  | nil => rfl
  | cons t ts =>
      have h1 : treeFind loc t = none :=
        treeFind_no_ids loc t
          (fun j hj hins => h j hj (by simp [forestAllIds, hins]))
      have h2 : forestFind loc ts = none :=
        forestFind_no_ids loc ts
          (fun j hj hins => h j hj (by simp [forestAllIds, hins]))
      simp [forestFind, h1, h2]

end

mutual

/-- If none of the ids a locator matches occurs in an element, the shadow
scan over the light elements of that element finds nothing. -/
theorem scanTree_no_ids (loc : Locator) (t : ETree)
    (h : ∀ i ∈ loc.ids, i ∉ treeAllIds t) :
    scanShadows loc (treeElems t) = none := by
  cases t with
  | node i sh ch =>
      have h1 : elemShadowFind loc (.node i sh ch) = none := by
        cases sh with
        | noShadow => rfl
        | shadow s =>
            show evalXPath loc s = none
            unfold evalXPath
            split
            · exact forestFind_no_ids loc s
                (fun j hj hins => h j hj (by simp [treeAllIds, shadowAllIds, hins]))
            · rfl
      have h2 : scanShadows loc (forestElems ch) = none :=
        scanForest_no_ids loc ch
          (fun j hj hins => h j hj (by simp [treeAllIds, hins]))
      simp [treeElems, scanShadows, h1, h2]

/-- If none of the ids a locator matches occurs in a forest, the shadow
scan over the light elements of that forest finds nothing. -/
theorem scanForest_no_ids (loc : Locator) (d : EForest)
    (h : ∀ i ∈ loc.ids, i ∉ forestAllIds d) :
    scanShadows loc (forestElems d) = none := by
  cases d with
  | nil => rfl
  | cons t ts =>
      have h1 : scanShadows loc (treeElems t) = none :=
        scanTree_no_ids loc t
          (fun j hj hins => h j hj (by simp [forestAllIds, hins]))
      have h2 : scanShadows loc (forestElems ts) = none :=
        scanForest_no_ids loc ts
          (fun j hj hins => h j hj (by simp [forestAllIds, hins]))
      simp [forestElems, scanShadows_append, h1, h2]

end

/-- If no id a locator matches occurs in any listed frame, the frame loop
finds nothing. -/
theorem framesFind_no_ids (loc : Locator) (fs : List EForest)
    (h : ∀ f ∈ fs, ∀ i ∈ loc.ids, i ∉ forestAllIds f) :
    framesFind loc fs = none := by
  induction fs with
  | nil => rfl
  | cons f fs ih =>
      have h1 : evalXPath loc f = none := by
        unfold evalXPath
        split
        · exact forestFind_no_ids loc f (h f (by simp))
        · rfl
      simp [framesFind, h1, ih (fun g hg => h g (by simp [hg]))]

-- ==========================================================================
-- Theorems about acquisition.
-- ==========================================================================

/-- C3 counterexample: the implemented search is not the recursive pass
the claim describes: at the doubly-nested page the acquisition routine
returns none while the spec-worded recursive search order finds the
target element 5. -/
theorem locate_not_spec_recursive_cex :
    locateRobustly deepPage deepLoc = none ∧
    locateSpecRecursive deepPage deepLoc = some 5 := by
  decide

/-- C3 (amended): the acquisition routine equals a fixed first-hit search
order: first the main document, then each attached frame in document
order, then a single depth-one pass evaluating the locator against the
shadow root of each light-DOM element (shadow roots nested inside other
shadow roots are not visited), short-circuiting on the first match. -/
theorem locate_search_order (p : PageDom) (loc : Locator) :
    locateRobustly p loc = locateSpecOrder p loc := by
  unfold locateRobustly locateSpecOrder
  cases hv : loc.valid with
  | false =>
      simp [hv, evalXPath_invalid _ _ hv, framesFind_invalid _ _ hv,
            scanShadows_invalid _ _ hv]
  | true =>
      have he : evalXPath loc p.mainDoc = forestFind loc p.mainDoc := by
        simp [evalXPath, hv]
      rw [he]
      cases hF : forestFind loc p.mainDoc <;> simp [hF]

/-- Helper: an invalid locator expression makes the whole acquisition
routine return none. -/
theorem locateRobustly_invalid (p : PageDom) (loc : Locator)
    (hv : loc.valid = false) : locateRobustly p loc = none := by
  simp [locateRobustly, hv, evalXPath_invalid _ _ hv, framesFind_invalid _ _ hv,
        scanShadows_invalid _ _ hv]

/-- Helper: a locator matching no element in any scope makes the whole
acquisition routine return none. -/
theorem locateRobustly_no_match (p : PageDom) (loc : Locator)
    (h : NoScopeMatch p loc) : locateRobustly p loc = none := by
  obtain ⟨hmain, hframes⟩ := h
  have h1 : forestFind loc p.mainDoc = none := forestFind_no_ids loc _ hmain
  have h2 : framesFind loc p.frames = none := framesFind_no_ids loc _ hframes
  have h3 : scanShadows loc (forestElems p.mainDoc) = none :=
    scanForest_no_ids loc _ hmain
  have h4 : evalXPath loc p.mainDoc = none := by
    unfold evalXPath
    split
    · exact h1
    · rfl
  simp [locateRobustly, h1, h2, h3, h4]

/-- C4: an invalid locator expression and a locator matching no element
in any scope are both answered with none (NotFound) by the acquisition
routine, never with an exception: the two cases are indistinguishable at
the locate interface. -/
theorem locate_notfound_none (p : PageDom) (loc : Locator) :
    (loc.valid = false → locateRobustly p loc = none) ∧
    (NoScopeMatch p loc → locateRobustly p loc = none) :=
  ⟨locateRobustly_invalid p loc, locateRobustly_no_match p loc⟩

/-- Witness for locate_notfound_none: on a concrete page, an invalid
locator and a valid no-match locator both yield none. -/
theorem locate_notfound_none_witness :
    locateRobustly pageEx locInvalid = none ∧ locateRobustly pageEx locMiss = none :=
  ⟨(locate_notfound_none pageEx locInvalid).1 rfl,
   (locate_notfound_none pageEx locMiss).2 (by decide)⟩

/-- C8: the target id 5 does occur in the page (two shadow levels deep),
yet the acquisition routine returns none: the shadow scan only inspects
shadow roots of light-DOM elements and XPath evaluation does not pierce
nested shadow roots, so a doubly-nested element is unreachable, contrary
to the recursive deep scan the module documentation announces. -/
theorem deep_shadow_unreachable :
    5 ∈ forestAllIds deepDoc ∧ locateRobustly deepPage deepLoc = none := by
  decide

-- ==========================================================================
-- Theorems about the escalation ladder and the typing cadence.
-- ==========================================================================

/-- C5: the click ladder tries its four levels in fixed order, each level
only when every earlier level failed, stopping at the first success;
failures below the terminal level are swallowed, and the
escalation-exhausted error is reported exactly when all four levels
fail. -/
theorem click_ladder_order (e : ClickEnv) :
    (e.l1 = true → escalatedClickEngine e = .ok 1) ∧
    (e.l1 = false → e.l2 = true → escalatedClickEngine e = .ok 2) ∧
    (e.l1 = false → e.l2 = false → e.l3 = true → escalatedClickEngine e = .ok 3) ∧
    (e.l1 = false → e.l2 = false → e.l3 = false → clickLevel4 e = true →
      escalatedClickEngine e = .ok 4) ∧
    (escalatedClickEngine e = .error "ALL CLICK ESCALATION LEVELS EXHAUSTED." ↔
      e.l1 = false ∧ e.l2 = false ∧ e.l3 = false ∧ clickLevel4 e = false) := by
  obtain ⟨a, b, c, d, f⟩ := e
  cases a <;> cases b <;> cases c <;> cases d <;> cases f <;>
    simp [escalatedClickEngine, clickLevel4]

/-- Witness for click_ladder_order: with level 1 failing and level 2
succeeding, the ladder stops at level 2. -/
theorem click_ladder_order_witness :
    escalatedClickEngine ⟨false, true, true, true, true⟩ = .ok 2 :=
  (click_ladder_order ⟨false, true, true, true, true⟩).2.1 rfl rfl

/-- C9: the inter-keystroke delay is always at least the configured base
latency, and between character pairs with the same word-boundary status
it grows monotonically with the layout distance between the key
positions.  Spec-modelled: the PointerPhysics typing-delay component is
not under src. -/
theorem typing_delay_base_monotone (a b c d : Char)
    (hb : isBoundary b = isBoundary d) (hdist : keyDist a b ≤ keyDist c d) :
    baseLatency ≤ typingDelay a b ∧ typingDelay a b ≤ typingDelay c d := by
  unfold typingDelay
  rw [hb]
  cases hbd : isBoundary d <;>
    simp [hbd, baseLatency, distFactor, boundaryPause] <;> omega

/-- Witness for typing_delay_base_monotone on concrete home-row
characters: s is one key from a, l is eight keys from a. -/
theorem typing_delay_base_monotone_witness :
    baseLatency ≤ typingDelay 'a' 's' ∧ typingDelay 'a' 's' ≤ typingDelay 'a' 'l' :=
  typing_delay_base_monotone 'a' 's' 'a' 'l' (by decide) (by decide)

-- ==========================================================================
-- Theorems about the execute() orchestration.
-- ==========================================================================

/-- C1 counterexample: on a concrete intent whose locator matches no
element in any scope, execute() records the failure in the error log and
history but writes no outcome label at all: the impact field stays
untouched instead of becoming ACQUISITION_FAILED or UNKNOWN_STATE. -/
theorem execute_acquisition_no_outcome_cex :
    (executeZenith envOk stMissClick).state.error_log =
      ["Element lookup failed for //missing"] ∧
    (executeZenith envOk stMissClick).state.last_action_impact = none ∧
    (executeZenith envOk stMissClick).state.last_action_impact ≠
      some "ACQUISITION_FAILED" ∧
    (executeZenith envOk stMissClick).state.last_action_impact ≠
      some "UNKNOWN_STATE" := by
  refine ⟨rfl, rfl, ?_, ?_⟩ <;> decide

/-- C1 (amended): execute() always returns exactly one result and never
propagates an exception: with an intent present, a locator matching no
element in any scope yields a returned state with status PLANNING, a
FAILED history entry and a populated error log, while the impact field is
left unchanged (the code sets no ACQUISITION_FAILED outcome label); and
every exception raised inside the action block is converted by the fatal
handler into a CRASH history entry plus a Navigator Fatal error entry
with status PLANNING. -/
theorem execute_never_raises (env : PageEnv) (st : AgentState)
    (m : SemanticMap) (loc : Locator)
    (hm : st.semantic_map = some m) (hx : m.target_xpath = some loc) :
    (NoScopeMatch env.dom loc →
      executeZenith env st = ⟨{ st with
        history_steps := st.history_steps ++
          ["FAILED on " ++ loc.expr ++ " -> Element Vanished/Hidden during acquisition."],
        error_log := st.error_log ++ ["Element lookup failed for " ++ loc.expr],
        status := "PLANNING" }, 1⟩) ∧
    (∀ e n, executeTry env st loc m.action_type = .error (e, n) →
      executeZenith env st = ⟨crashState st loc e, n⟩) := by
  have hcold : coldStart st = false := by
    simp [coldStart, hm]
  constructor
  · intro hnm
    have hloc : locateRobustly env.dom loc = none :=
      locateRobustly_no_match env.dom loc hnm
    simp [executeZenith, hcold, hm, hx, executeTry, hloc]
  · intro e n he
    simp [executeZenith, hcold, hm, hx, he]

/-- Witness for execute_never_raises: the acquisition-failure branch at a
concrete page and state. -/
theorem execute_never_raises_witness :
    executeZenith envOk stMissClick = ⟨{ stMissClick with
      history_steps := stMissClick.history_steps ++
        ["FAILED on " ++ locMiss.expr ++ " -> Element Vanished/Hidden during acquisition."],
      error_log := stMissClick.error_log ++ ["Element lookup failed for " ++ locMiss.expr],
      status := "PLANNING" }, 1⟩ :=
  (execute_never_raises envOk stMissClick ⟨some locMiss, "CLICK"⟩ locMiss rfl rfl).1
    (by decide)

/-- C6 counterexample: on a concrete intent whose click ladder is
exhausted, execute() performs only the before fingerprint capture (one
capture, not two: the after fingerprint is never taken) and writes no
UNKNOWN_STATE outcome label. -/
theorem execute_ladder_terminal_cex :
    (executeZenith envLadderFail stClick).fpCaptures = 1 ∧
    (executeZenith envLadderFail stClick).state.last_action_impact = none := by
  exact ⟨rfl, rfl⟩

/-- C6 (amended): when the executor ladder fails terminally during
execute(), the exception propagates to the fatal handler: the call
returns status PLANNING with a CRASH history entry and the terminal
error recorded in the error log, the after fingerprint is NOT captured
(exactly one capture is performed), and the impact field is left
unchanged (no UNKNOWN_STATE outcome label is written). -/
theorem execute_ladder_terminal_behaviour (env : PageEnv) (st : AgentState)
    (m : SemanticMap) (loc : Locator)
    (hm : st.semantic_map = some m) (hx : m.target_xpath = some loc)
    (ha : m.action_type = "CLICK")
    (hloc : (locateRobustly env.dom loc).isSome = true)
    (h1 : env.click.l1 = false) (h2 : env.click.l2 = false)
    (h3 : env.click.l3 = false) (h4 : clickLevel4 env.click = false) :
    executeZenith env st =
      ⟨crashState st loc "ALL CLICK ESCALATION LEVELS EXHAUSTED.", 1⟩ ∧
    (executeZenith env st).fpCaptures = 1 ∧
    (executeZenith env st).state.last_action_impact = st.last_action_impact := by
  have hcold : coldStart st = false := by
    simp [coldStart, hm]
  simp only [clickLevel4] at h4
  have heng : escalatedClickEngine env.click =
      .error "ALL CLICK ESCALATION LEVELS EXHAUSTED." := by
    simp [escalatedClickEngine, h1, h2, h3, h4]
  obtain ⟨i0, hid⟩ := Option.isSome_iff_exists.mp hloc
  have htry : executeTry env st loc m.action_type =
      .error ("ALL CLICK ESCALATION LEVELS EXHAUSTED.", 1) := by
    rw [ha]
    simp [executeTry, hid, heng]
  have hmain : executeZenith env st =
      ⟨crashState st loc "ALL CLICK ESCALATION LEVELS EXHAUSTED.", 1⟩ := by
    simp [executeZenith, hcold, hm, hx, htry]
  refine ⟨hmain, ?_, ?_⟩ <;> rw [hmain] <;> rfl

/-- Witness for execute_ladder_terminal_behaviour at a concrete page,
state and exhausted click environment. -/
theorem execute_ladder_terminal_behaviour_witness :
    executeZenith envLadderFail stClick =
      ⟨crashState stClick locHit "ALL CLICK ESCALATION LEVELS EXHAUSTED.", 1⟩ :=
  (execute_ladder_terminal_behaviour envLadderFail stClick ⟨some locHit, "CLICK"⟩ locHit
    rfl rfl rfl (by decide) rfl rfl rfl rfl).1
